import Mathlib

/-
Verification of the incremental Intercom reporting-data export connector
(`connector.py`).  The connector's `update` entrypoint plans a time window
from the persisted checkpoint state, enqueues a remote export job, polls it
to completion, downloads the resulting CSV, emits one upsert per decoded row
and finally emits a checkpoint carrying the window's end timestamp.

The embedding below models the Python code shallowly:
- dynamic Python values that the configuration dictionary may hold are the
  inductive `PyVal`;
- network effects (enqueue / poll / download responses, sink behaviour) are
  an explicit environment `Env`, and a run of `update` produces the list of
  emitted operations, the list of network requests made, and an optional
  error (a raised Python exception);
- wall-clock time is a single integer `now` (the source calls
  `datetime.now` twice, for the default start and for the window cap; the
  sub-second difference between those two reads is not modelled);
- `str.split`, `str.strip`, `int(...)` and the (unquoted) CSV decoding done
  by `csv.DictReader` are implemented over character lists so that every
  definition evaluates inside the kernel.
-/

/-- Dynamic value stored in the Python configuration dictionary.  Only the
shapes the connector can meet matter here: `none` models both an absent key
(`dict.get` returns `None`) and an explicit `None`, `int`, `str`, and a list
of strings for `attribute_ids`. -/
inductive PyVal where
  | none : PyVal
  | int (n : Int) : PyVal
  | str (s : String) : PyVal
  | list (xs : List String) : PyVal
deriving DecidableEq

/-- Python truthiness (`bool(v)`) for the modelled value shapes. -/
def pyTruthy : PyVal → Bool
  | PyVal.none => false
  | PyVal.int n => n ≠ 0
  | PyVal.str s => s ≠ ""
  | PyVal.list xs => xs ≠ []

/-- Split a character list on a separator character, as Python
`str.split(sep)` does for a one-character separator: the result always has
one more group than there are separators, so empty segments are kept. -/
def splitChar (sep : Char) : List Char → List (List Char)
  | [] => [[]]
  | c :: cs =>
    match splitChar sep cs with
    | [] => [[]]
    | g :: gs => if c = sep then [] :: g :: gs else (c :: g) :: gs

/-- Python `s.split(sep)` for a one-character separator. -/
def pySplit (sep : Char) (s : String) : List String :=
  (splitChar sep s.data).map (fun cs => String.mk cs)

/-- Python `s.strip()`: drop leading and trailing whitespace.  (Python also
strips some further Unicode whitespace; the ASCII whitespace handled by
`Char.isWhitespace` is enough for the inputs modelled here.) -/
def pyStrip (s : String) : String :=
  String.mk (((s.data.dropWhile Char.isWhitespace).reverse.dropWhile Char.isWhitespace).reverse)

/-- Accumulate a decimal digit string into a natural number, failing on the
first non-digit character. -/
def digitsToNatAux : List Char → Nat → Option Nat
  | [], acc => some acc
  | c :: cs, acc =>
    if c.isDigit then digitsToNatAux cs (acc * 10 + (c.toNat - 48)) else Option.none

/-- Python `int(s)` on a string: optional surrounding whitespace, optional
sign, then at least one decimal digit; anything else raises `ValueError`,
modelled as `Option.none`.  (Underscore digit separators are not modelled.) -/
def parsePyInt (s : String) : Option Int :=
  match (pyStrip s).data with
  | [] => Option.none
  | '-' :: [] => Option.none
  | '-' :: c :: cs => (digitsToNatAux (c :: cs) 0).map (fun n => -(n : Int))
  | '+' :: [] => Option.none
  | '+' :: c :: cs => (digitsToNatAux (c :: cs) 0).map (fun n => (n : Int))
  | cs => (digitsToNatAux cs 0).map (fun n => (n : Int))

/-- Python `int(v)` on a dynamic value: an integer passes through, a numeric
string is parsed, and `None` (TypeError), a non-numeric string (ValueError)
or a list (TypeError) fail, modelled as `Option.none`. -/
def pyInt? : PyVal → Option Int
  | PyVal.none => Option.none
  | PyVal.int n => some n
  | PyVal.str s => parsePyInt s
  | PyVal.list _ => Option.none

/-- The connector's `_as_int(val, default)` helper at an integer default, as
used for `window_seconds`: `int(val)`, falling back to the default when
`int` raises `TypeError` or `ValueError`. -/
def _as_int (v : PyVal) (d : Int) : Int :=
  match pyInt? v with
  | some n => n
  | Option.none => d

/-- The connector's `_as_int(val, None)` call used for `initial_start_time`:
the fallback value is Python `None`, so the result is optional. -/
def asIntOrNone (v : PyVal) : Option Int :=
  pyInt? v

/-- Connector configuration dictionary (`configuration` parameter of
`update`).  The three credential fields only flow into request headers and
query parameters, which are not further inspected by the code. -/
structure Config where
  access_token : String
  app_id : String
  client_id : String
  dataset_id : String
  attribute_ids : PyVal
  window_seconds : PyVal
  initial_start_time : PyVal

/-- Window span: `_as_int(configuration.get("window_seconds"), 3600)`. -/
def windowSpan (conf : Config) : Int :=
  _as_int conf.window_seconds 3600

/-- Window start, from `update`: with a non-empty prior state the start is
`state["last_end_time"] + 1`; otherwise `_as_int` of the configured
`initial_start_time`, and whenever that result is falsy (`None` or `0`,
per `if not start_ts:`) the default of 24 hours before now.  The prior
state is `some last` for a non-empty state dictionary holding
`last_end_time = last`, and `Option.none` for an empty or absent state. -/
def computeStart (conf : Config) (state : Option Int) (now : Int) : Int :=
  match state with
  | some last => last + 1
  | Option.none =>
    match asIntOrNone conf.initial_start_time with
    | some n => if n = 0 then now - 86400 else n
    | Option.none => now - 86400

/-- Window end, from `update`: `min(start_ts + window_seconds, now)`. -/
def computeEnd (conf : Config) (state : Option Int) (now : Int) : Int :=
  min (computeStart conf state now + windowSpan conf) now

/-- Parsing of `attribute_ids`, from `update`: a string is split on commas,
each segment stripped, and segments that are empty after stripping are
dropped (`[s.strip() for s in raw_attrs.split(',') if s.strip()]`); any
other value `v` becomes `v or []`, i.e. passes through when truthy and
becomes the empty list otherwise. -/
def parseAttributeIds (raw : PyVal) : PyVal :=
  match raw with
  | PyVal.str s =>
    PyVal.list ((pySplit ',' s).filterMap
      (fun seg => if pyStrip seg = "" then Option.none else some (pyStrip seg)))
  | v => if pyTruthy v then v else PyVal.list []

/-- One simulated HTTP response to a poll request in `_poll_job`: a 404
(treated as transient), any other non-2xx status code (on which
`raise_for_status` raises `HTTPError`), or a 2xx response whose JSON body
has the given `status` field (`""` when absent, per `info.get("status", "")`)
and, optionally, a `download_url` field. -/
inductive PollResp where
  | notFound : PollResp
  | httpError (code : Nat) : PollResp
  | ok (status : String) (download_url : Option String) : PollResp
deriving DecidableEq

/-- Observable event of the polling loop: one GET request to the job status
endpoint, or one `time.sleep` of the given number of seconds. -/
inductive PollEv where
  | request : PollEv
  | sleep (d : Nat) : PollEv
deriving DecidableEq

/-- Result of `_poll_job`: normal return with the job metadata's
`download_url` (reached only on `status == "complete"`), or one of the three
raising exits — `requests.HTTPError` from `raise_for_status`, the
`RuntimeError` for a failed job, or the `TimeoutError` after the attempt
budget is exhausted (the latter two carrying their message strings). -/
inductive PollOutcome where
  | complete (download_url : Option String) : PollOutcome
  | httpFail (code : Nat) : PollOutcome
  | jobFailed (msg : String) : PollOutcome
  | timedOut (msg : String) : PollOutcome
deriving DecidableEq

/-- Message of the `RuntimeError` raised on a failed job:
`f"Export job {job_id} failed with status '{status}'"`. -/
def jobFailedMessage (jobId status : String) : String :=
  "Export job " ++ jobId ++ " failed with status \x27" ++ status ++ "\x27"

/-- Message of the `TimeoutError` raised when the poll budget is exhausted:
`f"Export job {job_id} did not complete after {max_tries * poll_interval} seconds"`. -/
def timeoutMessage (jobId : String) (secs : Nat) : String :=
  "Export job " ++ jobId ++ " did not complete after " ++ toString secs ++ " seconds"

/-- The `for attempt in range(max_tries)` loop of `_poll_job`, with
`remaining` iterations left and `attempt` the index of the next one; `resp`
gives the simulated response to the request made on each attempt.  Mirrors
the source order exactly: request, 404 check (sleep and continue),
`raise_for_status`, `status == "complete"` (return), `status in
{"failed", "error"}` (raise), otherwise sleep and continue; falling off the
loop raises the timeout error with the message prepared by `_poll_job`. -/
def pollLoop (resp : Nat → PollResp) (jobId tmsg : String) (p : Nat) :
    Nat → Nat → PollOutcome × List PollEv
  | _, 0 => (PollOutcome.timedOut tmsg, [])
  | attempt, r + 1 =>
    match resp attempt with
    | PollResp.notFound =>
      ((pollLoop resp jobId tmsg p (attempt + 1) r).1,
        PollEv.request :: PollEv.sleep p :: (pollLoop resp jobId tmsg p (attempt + 1) r).2)
    | PollResp.httpError c => (PollOutcome.httpFail c, [PollEv.request])
    | PollResp.ok status url =>
      if status = "complete" then (PollOutcome.complete url, [PollEv.request])
      else if status = "failed" ∨ status = "error" then
        (PollOutcome.jobFailed (jobFailedMessage jobId status), [PollEv.request])
      else
        ((pollLoop resp jobId tmsg p (attempt + 1) r).1,
          PollEv.request :: PollEv.sleep p :: (pollLoop resp jobId tmsg p (attempt + 1) r).2)

/-- The connector's `_poll_job(conf, job_id, poll_interval, max_tries)`,
returning both its outcome and the trace of requests and sleeps it
performs. -/
def _poll_job (resp : Nat → PollResp) (jobId : String) (p maxTries : Nat) :
    PollOutcome × List PollEv :=
  pollLoop resp jobId (timeoutMessage jobId (maxTries * p)) p 0 maxTries

/-- Number of poll requests recorded in a poll trace. -/
def requestCount (tr : List PollEv) : Nat :=
  (tr.filter (fun e => match e with | PollEv.request => true | PollEv.sleep _ => false)).length

/-- Lines handed to the CSV reader: the downloaded text split on newlines,
with blank lines dropped (`csv.DictReader` skips rows parsed from empty
lines, and the trailing newline of the payload produces exactly such a
blank line). -/
def csvLines (text : String) : List String :=
  (pySplit '\n' text).filter (fun l => l ≠ "")

/-- Zip a CSV record's values with the header's field names the way
`csv.DictReader` builds its row dictionary for unquoted input: a missing
value is filled with `None` (the default `restval`); surplus values (which
the reader would file under the `None` key) are not modelled. -/
def zipFields : List String → List String → List (String × Option String)
  | [], _ => []
  | n :: ns, [] => (n, Option.none) :: zipFields ns []
  | n :: ns, v :: vs => (n, some v) :: zipFields ns vs

/-- The rows produced by `csv.DictReader(io.StringIO(csv_text))` for
unquoted CSV input: the first line is the header, every further line is
split on commas and zipped with the header fields. -/
def dictReader (text : String) : List (List (String × Option String)) :=
  match csvLines text with
  | [] => []
  | header :: rest =>
    rest.map (fun line => zipFields (pySplit ',' header) (pySplit ',' line))

/-- The per-field cleanup in `update`'s row loop: `v if v != "" else None`.
A `None` filled in for a missing value is unequal to `""` in Python and so
passes through. -/
def cleanField (v : Option String) : Option String :=
  if v = some "" then Option.none else v

/-- The rows `update` emits for a downloaded payload: the `DictReader` rows
with each field value cleaned (`cleaned = {k: (v if v != "" else None) for
k, v in row.items()}`). -/
def decodeRows (text : String) : List (List (String × Option String)) :=
  (dictReader text).map (fun row => row.map (fun kv => (kv.1, cleanField kv.2)))

/-- Operation emitted by the `update` generator: `op.upsert(table, data)`
for one cleaned row, or `op.checkpoint({"last_end_time": end_ts})`. -/
inductive Op where
  | upsert (table : String) (data : List (String × Option String)) : Op
  | checkpoint (last_end_time : Int) : Op
deriving DecidableEq

/-- Body of the enqueue POST request built by `_enqueue_job`. -/
structure EnqueuePayload where
  dataset_id : String
  attribute_ids : PyVal
  start_time : Int
  end_time : Int
deriving DecidableEq

/-- Network request made during one invocation of `update`: the enqueue
POST with its payload, one poll GET, or the result-file GET at the job's
download URL. -/
inductive NetEv where
  | enqueueReq (payload : EnqueuePayload) : NetEv
  | pollReq : NetEv
  | downloadReq (url : String) : NetEv
deriving DecidableEq

/-- Exception aborting an invocation of `update`: `HTTPError` from the
enqueue request (or a missing `job_identifier` in its response),
`HTTPError` from a poll request, the job-failure `RuntimeError`, the poll
`TimeoutError`, the `KeyError` on a completed job lacking `download_url`,
`HTTPError` from the download request, or an error raised while the sink
processed the upsert of the row with the given index. -/
inductive SyncErr where
  | submissionError : SyncErr
  | pollHttpError (code : Nat) : SyncErr
  | jobFailed (msg : String) : SyncErr
  | jobTimeout (msg : String) : SyncErr
  | missingDownloadUrl : SyncErr
  | downloadError : SyncErr
  | sinkError (row : Nat) : SyncErr
deriving DecidableEq

/-- Environment of one invocation: the current wall-clock time and the
behaviour of the remote API and of the sink.  `enqueueResult` is the job id
returned by a successful enqueue, or an error when the POST fails;
`pollResp` gives the response to each poll attempt; `download` maps a
download URL to the payload text or a failure; `sinkOk i` tells whether the
sink processes the upsert of row `i` without raising. -/
structure Env where
  now : Int
  enqueueResult : Except Unit String
  pollResp : Nat → PollResp
  download : String → Except Unit String
  sinkOk : Nat → Bool

/-- Observable result of one invocation of `update`: the operations the
generator emitted, the network requests made, and the exception that
aborted it, if any. -/
structure RunResult where
  ops : List Op
  net : List NetEv
  err : Option SyncErr
deriving DecidableEq

/-- Payload of the enqueue request, as `_enqueue_job` builds it from the
configuration and the planned window. -/
def enqueuePayload (conf : Config) (startTs endTs : Int) : EnqueuePayload :=
  { dataset_id := conf.dataset_id
    attribute_ids := parseAttributeIds conf.attribute_ids
    start_time := startTs
    end_time := endTs }

/-- Poll-request trace of `_poll_job` mapped into the invocation's network
trace (sleeps are not network events). -/
def pollNet (tr : List PollEv) : List NetEv :=
  tr.filterMap (fun e => match e with
    | PollEv.request => some NetEv.pollReq
    | PollEv.sleep _ => Option.none)

/-- The row-emission loop of `update`: rows are upserted in order; when the
sink raises on row `i` the upsert of that row has already been yielded, the
loop stops, and the invocation aborts with that error. -/
def emitRows (sinkOk : Nat → Bool) (table : String) :
    List (List (String × Option String)) → Nat → List Op × Option SyncErr
  | [], _ => ([], Option.none)
  | row :: rest, i =>
    if sinkOk i then
      (Op.upsert table row :: (emitRows sinkOk table rest (i + 1)).1,
        (emitRows sinkOk table rest (i + 1)).2)
    else ([Op.upsert table row], some (SyncErr.sinkError i))

/-- Stage of `update` after a successful download: decode the CSV text and
stream the upserts; only when every row is emitted without error is the
checkpoint `{"last_end_time": end_ts}` yielded. -/
def afterDownload (conf : Config) (endTs : Int) (env : Env) (net : List NetEv)
    (text : String) : RunResult :=
  match emitRows env.sinkOk conf.dataset_id (decodeRows text) 0 with
  | (ups, some e) => { ops := ups, net := net, err := some e }
  | (ups, Option.none) =>
    { ops := ups ++ [Op.checkpoint endTs], net := net, err := Option.none }

/-- Stage of `update` after the poll reported `complete` with a download
URL: `_download_csv` fetches the payload; a failing download aborts the
invocation. -/
def afterComplete (conf : Config) (endTs : Int) (env : Env) (net : List NetEv)
    (url : String) : RunResult :=
  match env.download url with
  | Except.error _ =>
    { ops := [], net := net ++ [NetEv.downloadReq url], err := some SyncErr.downloadError }
  | Except.ok text => afterDownload conf endTs env (net ++ [NetEv.downloadReq url]) text

/-- Stage of `update` dispatching on the outcome of `_poll_job`: the three
raising outcomes abort the invocation; on `complete` the code reads
`job_info["download_url"]`, raising `KeyError` when the key is absent. -/
def afterPoll (conf : Config) (endTs : Int) (env : Env) (net : List NetEv) :
    PollOutcome → RunResult
  | PollOutcome.httpFail c => { ops := [], net := net, err := some (SyncErr.pollHttpError c) }
  | PollOutcome.jobFailed m => { ops := [], net := net, err := some (SyncErr.jobFailed m) }
  | PollOutcome.timedOut m => { ops := [], net := net, err := some (SyncErr.jobTimeout m) }
  | PollOutcome.complete Option.none =>
    { ops := [], net := net, err := some SyncErr.missingDownloadUrl }
  | PollOutcome.complete (some url) => afterComplete conf endTs env net url

/-- Stage of `update` after a successful enqueue returned `jobId`:
`_poll_job(configuration, job_id)` runs with the source's call-site
defaults `poll_interval=10`, `max_tries=60`. -/
def afterEnqueue (conf : Config) (startTs endTs : Int) (env : Env) (jobId : String) :
    RunResult :=
  afterPoll conf endTs env
    (NetEv.enqueueReq (enqueuePayload conf startTs endTs)
      :: pollNet (_poll_job env.pollResp jobId 10 60).2)
    (_poll_job env.pollResp jobId 10 60).1

/-- The export workflow of `update` once a non-empty window is planned:
`_enqueue_job`, `_poll_job`, `_download_csv`, row emission, checkpoint. -/
def runPipeline (conf : Config) (startTs endTs : Int) (env : Env) : RunResult :=
  match env.enqueueResult with
  | Except.error _ =>
    { ops := []
      net := [NetEv.enqueueReq (enqueuePayload conf startTs endTs)]
      err := some SyncErr.submissionError }
  | Except.ok jobId => afterEnqueue conf startTs endTs env jobId

/-- The connector's `update(configuration, state)` entrypoint: plan the
window from the prior state and the clock; when `start_ts >= end_ts` return
immediately with nothing emitted and no request made; otherwise run the
export workflow. -/
def update (conf : Config) (state : Option Int) (env : Env) : RunResult :=
  if computeStart conf state env.now ≥ computeEnd conf state env.now then
    { ops := [], net := [], err := Option.none }
  else
    runPipeline conf (computeStart conf state env.now) (computeEnd conf state env.now) env

/-- Poll response that keeps `_poll_job` in its loop: a 2xx response whose
`status` field is none of `"complete"`, `"failed"`, `"error"` (e.g.
`"pending"` or `"running"`). -/
def nonTerminal (r : PollResp) : Prop :=
  ∃ s u, r = PollResp.ok s u ∧ s ≠ "complete" ∧ ¬(s = "failed" ∨ s = "error")

/-- Trace of a run of the poll loop that never leaves the polling state:
each of the `r` attempts is one request followed by one sleep. -/
def pendingTrace (p : Nat) : Nat → List PollEv
  | 0 => []
  | r + 1 => PollEv.request :: PollEv.sleep p :: pendingTrace p r

theorem pollLoop_step_notFound (resp : Nat → PollResp) (jobId tmsg : String)
    (p attempt r : Nat) (h : resp attempt = PollResp.notFound) :
    pollLoop resp jobId tmsg p attempt (r + 1)
      = ((pollLoop resp jobId tmsg p (attempt + 1) r).1,
          PollEv.request :: PollEv.sleep p :: (pollLoop resp jobId tmsg p (attempt + 1) r).2) := by
  simp only [pollLoop, h]

theorem pollLoop_step_continue (resp : Nat → PollResp) (jobId tmsg : String)
    (p attempt r : Nat) (s : String) (u : Option String)
    (h : resp attempt = PollResp.ok s u) (hc : s ≠ "complete")
    (hf : ¬(s = "failed" ∨ s = "error")) :
    pollLoop resp jobId tmsg p attempt (r + 1)
      = ((pollLoop resp jobId tmsg p (attempt + 1) r).1,
          PollEv.request :: PollEv.sleep p :: (pollLoop resp jobId tmsg p (attempt + 1) r).2) := by
  simp only [pollLoop, h]
  rw [if_neg hc, if_neg hf]

theorem pollLoop_step_complete (resp : Nat → PollResp) (jobId tmsg : String)
    (p attempt r : Nat) (u : Option String)
    (h : resp attempt = PollResp.ok "complete" u) :
    pollLoop resp jobId tmsg p attempt (r + 1) = (PollOutcome.complete u, [PollEv.request]) := by
  simp only [pollLoop, h]
  rw [if_pos trivial]

theorem pollLoop_nonterminal (resp : Nat → PollResp) (jobId tmsg : String) (p : Nat) :
    ∀ (r attempt : Nat), (∀ i, i < r → nonTerminal (resp (attempt + i))) →
      pollLoop resp jobId tmsg p attempt r = (PollOutcome.timedOut tmsg, pendingTrace p r) := by
  intro r
  induction r with
  | zero => intro attempt _; rfl
  | succ r ih =>
    intro attempt h
    obtain ⟨s, u, hr, hc, hf⟩ := h 0 (Nat.succ_pos r)
    rw [Nat.add_zero] at hr
    have hrest := ih (attempt + 1) (fun i hi => by
      have h2 := h (i + 1) (Nat.succ_lt_succ hi)
      rwa [show attempt + (i + 1) = attempt + 1 + i from by omega] at h2)
    rw [pollLoop_step_continue resp jobId tmsg p attempt r s u hr hc hf, hrest]
    rfl

theorem requestCount_pendingTrace (p : Nat) : ∀ r, requestCount (pendingTrace p r) = r := by
  intro r
  induction r with
  | zero => rfl
  | succ r ih =>
    simp only [pendingTrace, requestCount, List.filter] at ih ⊢
    simpa using ih

theorem emitRows_no_checkpoint (sinkOk : Nat → Bool) (table : String) :
    ∀ (rows : List (List (String × Option String))) (i : Nat) (t : Int),
      Op.checkpoint t ∉ (emitRows sinkOk table rows i).1 := by
  intro rows
  induction rows with
  | nil => intro i t h; simp [emitRows] at h
  | cons row rest ih =>
    intro i t h
    by_cases hs : sinkOk i
    · simp only [emitRows, if_pos hs, List.mem_cons] at h
      rcases h with h | h
      · exact Op.noConfusion h
      · exact ih (i + 1) t h
    · simp only [emitRows, if_neg hs, List.mem_singleton] at h
      exact Op.noConfusion h

theorem emitRows_none_eq (sinkOk : Nat → Bool) (table : String) :
    ∀ (rows : List (List (String × Option String))) (i : Nat),
      (emitRows sinkOk table rows i).2 = Option.none →
      (emitRows sinkOk table rows i).1 = rows.map (Op.upsert table) := by
  intro rows
  induction rows with
  | nil => intro i _; rfl
  | cons row rest ih =>
    intro i h
    by_cases hs : sinkOk i
    · simp only [emitRows, if_pos hs] at h ⊢
      rw [List.map_cons, ih (i + 1) h]
    · simp only [emitRows, if_neg hs] at h
      exact absurd h (by simp)

theorem emitRows_all_ok (sinkOk : Nat → Bool) (table : String) :
    ∀ (rows : List (List (String × Option String))) (i : Nat),
      (∀ j, j < rows.length → sinkOk (i + j) = true) →
      emitRows sinkOk table rows i = (rows.map (Op.upsert table), Option.none) := by
  intro rows
  induction rows with
  | nil => intro i _; rfl
  | cons row rest ih =>
    intro i h
    have h0 : sinkOk i = true := by simpa using h 0 (by simp)
    have hrest := ih (i + 1) (fun j hj => by
      have h2 := h (j + 1) (by simpa using Nat.succ_lt_succ hj)
      rwa [show i + (j + 1) = i + 1 + j from by omega] at h2)
    simp only [emitRows, if_pos h0, hrest, List.map_cons]

theorem runPipeline_checkpoint_mem (conf : Config) (s e : Int) (env : Env) (t : Int) :
    Op.checkpoint t ∈ (runPipeline conf s e env).ops →
      (runPipeline conf s e env).err = Option.none ∧ t = e ∧
      ∃ url text, env.download url = Except.ok text ∧
        (runPipeline conf s e env).ops
          = (decodeRows text).map (Op.upsert conf.dataset_id) ++ [Op.checkpoint e] := by
  intro h
  simp only [runPipeline] at h ⊢
  cases henq : env.enqueueResult with
  | error u => simp only [henq] at h; simp at h
  | ok jobId =>
    simp only [henq, afterEnqueue] at h ⊢
    cases hout : (_poll_job env.pollResp jobId 10 60).1 with
    | httpFail c => simp only [hout, afterPoll] at h; simp at h
    | jobFailed m => simp only [hout, afterPoll] at h; simp at h
    | timedOut m => simp only [hout, afterPoll] at h; simp at h
    | complete u =>
      cases u with
      | none => simp only [hout, afterPoll] at h; simp at h
      | some url =>
        simp only [hout, afterPoll, afterComplete] at h ⊢
        cases hdl : env.download url with
        | error x => simp only [hdl] at h; simp at h
        | ok text =>
          simp only [hdl, afterDownload] at h ⊢
          cases hemit : emitRows env.sinkOk conf.dataset_id (decodeRows text) 0 with
          | mk ups e? =>
            simp only [hemit] at h ⊢
            cases e? with
            | some er =>
              simp only at h
              have hnc := emitRows_no_checkpoint env.sinkOk conf.dataset_id (decodeRows text) 0 t
              rw [hemit] at hnc
              exact absurd h hnc
            | none =>
              simp only at h ⊢
              have hups : ups = (decodeRows text).map (Op.upsert conf.dataset_id) := by
                have h2 := emitRows_none_eq env.sinkOk conf.dataset_id (decodeRows text) 0
                rw [hemit] at h2
                exact h2 rfl
              have hnc : Op.checkpoint t ∉ ups := by
                have h3 := emitRows_no_checkpoint env.sinkOk conf.dataset_id (decodeRows text) 0 t
                rwa [hemit] at h3
              have ht : t = e := by
                rcases List.mem_append.mp h with h4 | h4
                · exact absurd h4 hnc
                · have h5 := List.mem_singleton.mp h4
                  exact Op.checkpoint.inj h5
              exact ⟨trivial, ht, url, text, hdl, by rw [hups]⟩

theorem runPipeline_success (conf : Config) (s e : Int) (env : Env)
    (jobId url text : String)
    (henq : env.enqueueResult = Except.ok jobId)
    (hout : (_poll_job env.pollResp jobId 10 60).1 = PollOutcome.complete (some url))
    (hdl : env.download url = Except.ok text)
    (hsink : ∀ j, j < (decodeRows text).length → env.sinkOk j = true) :
    (runPipeline conf s e env).ops
        = (decodeRows text).map (Op.upsert conf.dataset_id) ++ [Op.checkpoint e] ∧
    (runPipeline conf s e env).err = Option.none := by
  have hemit := emitRows_all_ok env.sinkOk conf.dataset_id (decodeRows text) 0
    (fun j hj => by simpa using hsink j hj)
  simp only [runPipeline, henq, afterEnqueue, hout, afterPoll, afterComplete, hdl,
    afterDownload, hemit]
  exact ⟨trivial, trivial⟩

/-- Configuration used in the spec's end-to-end scenario: the default window
span of 3600 seconds and no initial start time configured. -/
def confC1 : Config :=
  { access_token := "tok", app_id := "app", client_id := "cli"
    dataset_id := "conversation", attribute_ids := PyVal.list ["a", "b"]
    window_seconds := PyVal.int 3600, initial_start_time := PyVal.none }

/-- Fully successful environment at time 5000: the enqueue returns a job id,
the first poll reports `complete` with a download URL, the download yields a
two-column CSV payload, and the sink accepts every row. -/
def envC1 : Env :=
  { now := 5000
    enqueueResult := Except.ok "job-1"
    pollResp := fun _ => PollResp.ok "complete" (some "https://dl")
    download := fun _ => Except.ok "a,b\n1,2\n"
    sinkOk := fun _ => true }

/-- Environment identical to `envC1` except that the download request
fails. -/
def envDlFail : Env :=
  { envC1 with download := fun _ => Except.error () }

/-- C1: for every non-empty prior state holding `last_end_time = last`,
every configuration (with span `windowSpan conf`) and every current time,
the planned window is `start = last + 1`, `end = min(start + span, now)`;
concretely, with state 1000, span 3600 and now 5000 the window is
(1001, 4601), and a fully successful invocation emits its rows and then a
checkpoint carrying `last_end_time = 4601`. -/
theorem update_window_plan :
    (∀ (last : Int) (conf : Config) (now : Int),
      computeStart conf (some last) now = last + 1 ∧
      computeEnd conf (some last) now = min (last + 1 + windowSpan conf) now) ∧
    computeStart confC1 (some 1000) 5000 = 1001 ∧
    computeEnd confC1 (some 1000) 5000 = 4601 ∧
    (update confC1 (some 1000) envC1).ops
      = [Op.upsert "conversation" [("a", some "1"), ("b", some "2")], Op.checkpoint 4601] ∧
    (update confC1 (some 1000) envC1).err = Option.none :=
  ⟨fun _ _ _ => ⟨rfl, rfl⟩, by decide, by decide, by decide, by decide⟩

/-- C7: whenever the planned window is empty (`start_ts >= end_ts`), the
invocation is a pure no-op: no upsert, no checkpoint, no network request,
and no error. -/
theorem update_noop_of_empty_window :
    ∀ (conf : Config) (st : Option Int) (env : Env),
      computeStart conf st env.now ≥ computeEnd conf st env.now →
      update conf st env = { ops := [], net := [], err := Option.none } := by
  intro conf st env h
  unfold update
  rw [if_pos h]

/-- Witness for C7: at time 5000 with checkpoint 5000 the window is
(5001, 5000), so the invocation does nothing. -/
theorem update_noop_of_empty_window_witness :
    computeStart confC1 (some 5000) envC1.now ≥ computeEnd confC1 (some 5000) envC1.now ∧
    update confC1 (some 5000) envC1 = { ops := [], net := [], err := Option.none } :=
  ⟨by decide, update_noop_of_empty_window confC1 (some 5000) envC1 (by decide)⟩

/-- Configuration with `initial_start_time` explicitly configured as `0`. -/
def confInitZero : Config :=
  { confC1 with initial_start_time := PyVal.int 0 }

/-- Configuration with `initial_start_time` configured as `42`. -/
def confInit42 : Config :=
  { confC1 with initial_start_time := PyVal.int 42 }

/-- C6 counterexample: with an empty prior state and `initial_start_time`
configured as `0`, the claim says the window start is the configured value
`0`; the code's `if not start_ts:` treats `0` as unconfigured, so at
`now = 1000000` the start is `1000000 - 86400 = 913600`, not `0`. -/
theorem initial_start_zero_not_used :
    computeStart confInitZero Option.none 1000000 = 913600 ∧ (913600 : Int) ≠ 0 := by
  decide

/-- C6 (amended): with an empty prior state the window start equals the
configured `initial_start_time` whenever it coerces to a nonzero integer;
when it is absent, not coercible, or zero (all falsy after `_as_int`), the
start defaults to 24 hours before now. -/
theorem computeStart_initial_config :
    (∀ (conf : Config) (now n : Int),
      asIntOrNone conf.initial_start_time = some n → n ≠ 0 →
      computeStart conf Option.none now = n) ∧
    (∀ (conf : Config) (now : Int),
      asIntOrNone conf.initial_start_time = Option.none ∨
        asIntOrNone conf.initial_start_time = some 0 →
      computeStart conf Option.none now = now - 86400) := by
  constructor
  · intro conf now n h hn
    unfold computeStart
    rw [h]
    simp [hn]
  · intro conf now h
    rcases h with h | h <;> simp [computeStart, h]

/-- Witness for the amended C6: a configured nonzero start of 42 is used,
and a configured start of 0 falls back to now minus 24 hours. -/
theorem computeStart_initial_config_witness :
    computeStart confInit42 Option.none 1000000 = 42 ∧
    computeStart confInitZero Option.none 1000000 = 1000000 - 86400 :=
  ⟨computeStart_initial_config.1 confInit42 1000000 42 (by decide) (by decide),
   computeStart_initial_config.2 confInitZero 1000000 (Or.inr (by decide))⟩

theorem filterMap_strip_eq (l : List String) :
    l.filterMap (fun seg => if pyStrip seg = "" then Option.none else some (pyStrip seg))
      = (l.map pyStrip).filter (fun t => t ≠ "") := by
  induction l with
  | nil => rfl
  | cons a l ih =>
    by_cases h : pyStrip a = ""
    · simp [List.filterMap_cons, h, ih]
    · simp [List.filterMap_cons, h, ih]

/-- C9 counterexample: for the string `"a,,b"` the comma-separated segments
with surrounding whitespace stripped are `["a", "", "b"]`, but the code
additionally drops segments that are empty after stripping, producing
`["a", "b"]`. -/
theorem attribute_ids_empty_segment_dropped :
    ((pySplit ',' "a,,b").map pyStrip) = ["a", "", "b"] ∧
    parseAttributeIds (PyVal.str "a,,b") = PyVal.list ["a", "b"] ∧
    PyVal.list ["a", "b"] ≠ PyVal.list ["a", "", "b"] := by
  decide

/-- C9 (amended): a string-valued `attribute_ids` is split on commas, each
segment stripped of surrounding whitespace, and segments that are empty
after stripping are dropped (so `"a, b,c"` yields `["a", "b", "c"]`); a
list-valued `attribute_ids` passes through to the enqueue payload
unchanged. -/
theorem parseAttributeIds_spec :
    (∀ s : String,
      parseAttributeIds (PyVal.str s)
        = PyVal.list (((pySplit ',' s).map pyStrip).filter (fun t => t ≠ ""))) ∧
    (∀ xs : List String, parseAttributeIds (PyVal.list xs) = PyVal.list xs) ∧
    (∀ (conf : Config) (startTs endTs : Int) (xs : List String),
      conf.attribute_ids = PyVal.list xs →
      (enqueuePayload conf startTs endTs).attribute_ids = PyVal.list xs) ∧
    parseAttributeIds (PyVal.str "a, b,c") = PyVal.list ["a", "b", "c"] := by
  have hstr : ∀ s : String,
      parseAttributeIds (PyVal.str s)
        = PyVal.list (((pySplit ',' s).map pyStrip).filter (fun t => t ≠ "")) := by
    intro s
    simp only [parseAttributeIds]
    rw [filterMap_strip_eq]
  have hlist : ∀ xs : List String, parseAttributeIds (PyVal.list xs) = PyVal.list xs := by
    intro xs
    by_cases h : xs = []
    · subst h; rfl
    · simp [parseAttributeIds, pyTruthy, h]
  refine ⟨hstr, hlist, fun conf startTs endTs xs h => ?_, by decide⟩
  unfold enqueuePayload
  simp only [h, hlist]

/-- Witness for the amended C9: the enqueue payload carries a list-valued
`attribute_ids` unchanged. -/
theorem parseAttributeIds_spec_witness :
    (enqueuePayload confC1 1001 4601).attribute_ids = PyVal.list ["a", "b"] :=
  parseAttributeIds_spec.2.2.1 confC1 1001 4601 ["a", "b"] rfl

/-- C10: when the configured `window_seconds` is absent or `int()` raises on
it (`TypeError` or `ValueError`), `update` silently uses the default span of
3600 seconds; the same `_as_int` fallback applies to `initial_start_time`,
which then falls through to the now-minus-24h default.  `pyInt?` is
`Option.none` exactly when `int()` raises; `PyVal.none` (absent / `None`)
and a non-numeric string are such values. -/
theorem asInt_fallback_defaults :
    (∀ conf : Config, pyInt? conf.window_seconds = Option.none → windowSpan conf = 3600) ∧
    (∀ (conf : Config) (now : Int), pyInt? conf.initial_start_time = Option.none →
      computeStart conf Option.none now = now - 86400) ∧
    pyInt? PyVal.none = Option.none ∧
    pyInt? (PyVal.str "abc") = Option.none := by
  refine ⟨fun conf h => ?_, fun conf now h => ?_, by decide, by decide⟩
  · unfold windowSpan _as_int
    rw [h]
  · unfold computeStart asIntOrNone
    rw [h]

/-- Configuration whose `window_seconds` is a non-numeric string and whose
`initial_start_time` is absent. -/
def confBadSpan : Config :=
  { confC1 with window_seconds := PyVal.str "soon", initial_start_time := PyVal.none }

/-- Witness for C10: the non-numeric span falls back to 3600 and the absent
initial start falls back to now minus 24 hours. -/
theorem asInt_fallback_defaults_witness :
    windowSpan confBadSpan = 3600 ∧
    computeStart confBadSpan Option.none 1000000 = 1000000 - 86400 :=
  ⟨asInt_fallback_defaults.1 confBadSpan (by decide),
   asInt_fallback_defaults.2.1 confBadSpan 1000000 (by decide)⟩

/-- C3: for any attempt budget `N >= 1`, if all of the first `N` poll
responses are 2xx responses whose status is neither `"complete"` nor
`"failed"` nor `"error"`, then `_poll_job` makes exactly `N` poll requests
and raises the timeout error, never making an `N+1`-th request. -/
theorem poll_all_pending_times_out :
    ∀ (resp : Nat → PollResp) (jobId : String) (p N : Nat),
      1 ≤ N → (∀ i, i < N → nonTerminal (resp i)) →
      (_poll_job resp jobId p N).1 = PollOutcome.timedOut (timeoutMessage jobId (N * p)) ∧
      requestCount (_poll_job resp jobId p N).2 = N := by
  intro resp jobId p N _ h
  unfold _poll_job
  rw [pollLoop_nonterminal resp jobId (timeoutMessage jobId (N * p)) p N 0
    (fun i hi => by simpa using h i hi)]
  exact ⟨rfl, requestCount_pendingTrace p N⟩

/-- Witness for C3: with `maxAttempts = 3` and every response `"pending"`,
the loop makes exactly 3 requests and raises the timeout error. -/
theorem poll_all_pending_times_out_witness :
    (_poll_job (fun _ => PollResp.ok "pending" Option.none) "job-1" 10 3).1
        = PollOutcome.timedOut (timeoutMessage "job-1" 30) ∧
    requestCount (_poll_job (fun _ => PollResp.ok "pending" Option.none) "job-1" 10 3).2 = 3 := by
  have h := poll_all_pending_times_out (fun _ => PollResp.ok "pending" Option.none) "job-1" 10 3
    (by decide) (fun i _ => ⟨"pending", Option.none, rfl, by decide, by decide⟩)
  simpa using h

theorem pollLoop_seq404 (resp : Nat → PollResp) (jobId tmsg : String) (p m : Nat)
    (u2 u3 : Option String)
    (h0 : resp 0 = PollResp.notFound) (h1 : resp 1 = PollResp.notFound)
    (h2 : resp 2 = PollResp.ok "pending" u2) (h3 : resp 3 = PollResp.ok "complete" u3) :
    pollLoop resp jobId tmsg p 0 (m + 4)
      = (PollOutcome.complete u3,
          [PollEv.request, PollEv.sleep p, PollEv.request, PollEv.sleep p,
           PollEv.request, PollEv.sleep p, PollEv.request]) := by
  have e3 : pollLoop resp jobId tmsg p 3 (m + 1) = (PollOutcome.complete u3, [PollEv.request]) :=
    pollLoop_step_complete resp jobId tmsg p 3 m u3 h3
  have e2 : pollLoop resp jobId tmsg p 2 (m + 2)
      = (PollOutcome.complete u3, [PollEv.request, PollEv.sleep p, PollEv.request]) := by
    rw [show m + 2 = (m + 1) + 1 from rfl,
      pollLoop_step_continue resp jobId tmsg p 2 (m + 1) "pending" u2 h2 (by decide) (by decide)]
    simp [e3]
  have e1 : pollLoop resp jobId tmsg p 1 (m + 3)
      = (PollOutcome.complete u3,
          [PollEv.request, PollEv.sleep p, PollEv.request, PollEv.sleep p, PollEv.request]) := by
    rw [show m + 3 = (m + 2) + 1 from rfl, pollLoop_step_notFound resp jobId tmsg p 1 (m + 2) h1]
    simp [e2]
  rw [show m + 4 = (m + 3) + 1 from rfl, pollLoop_step_notFound resp jobId tmsg p 0 (m + 3) h0]
  simp [e1]

/-- C4: a 404 poll response is transient: it is never surfaced as an error,
and the next poll follows a sleep of `pollInterval`.  For the response
sequence 404, 404, `"pending"`, `"complete"` and any budget of at least 4
attempts, `_poll_job` returns success after exactly 4 requests, sleeping
`pollInterval` between each consecutive pair of requests. -/
theorem poll_404_transient_then_complete :
    ∀ (resp : Nat → PollResp) (jobId : String) (p N : Nat) (u2 u3 : Option String),
      resp 0 = PollResp.notFound → resp 1 = PollResp.notFound →
      resp 2 = PollResp.ok "pending" u2 → resp 3 = PollResp.ok "complete" u3 →
      4 ≤ N →
      _poll_job resp jobId p N
        = (PollOutcome.complete u3,
            [PollEv.request, PollEv.sleep p, PollEv.request, PollEv.sleep p,
             PollEv.request, PollEv.sleep p, PollEv.request]) := by
  intro resp jobId p N u2 u3 h0 h1 h2 h3 hN
  obtain ⟨m, hm⟩ := Nat.exists_eq_add_of_le hN
  have hm2 : N = m + 4 := by omega
  subst hm2
  unfold _poll_job
  exact pollLoop_seq404 resp jobId (timeoutMessage jobId ((m + 4) * p)) p m u2 u3 h0 h1 h2 h3

/-- Response sequence 404, 404, `"pending"`, then `"complete"`. -/
def respC4 : Nat → PollResp := fun i =>
  match i with
  | 0 => PollResp.notFound
  | 1 => PollResp.notFound
  | 2 => PollResp.ok "pending" Option.none
  | _ => PollResp.ok "complete" (some "https://dl")

/-- Witness for C4: with the source's call-site defaults (interval 10,
60 attempts) the sequence 404, 404, pending, complete succeeds after 4
requests with a 10-second sleep between each consecutive pair. -/
theorem poll_404_transient_then_complete_witness :
    _poll_job respC4 "job-2" 10 60
      = (PollOutcome.complete (some "https://dl"),
          [PollEv.request, PollEv.sleep 10, PollEv.request, PollEv.sleep 10,
           PollEv.request, PollEv.sleep 10, PollEv.request]) :=
  poll_404_transient_then_complete respC4 "job-2" 10 60 Option.none (some "https://dl")
    rfl rfl rfl rfl (by decide)

/-- C5: whenever a 2xx poll response reports status `"failed"` or
`"error"`, the loop raises the job-failure error immediately — exactly one
further request (the one that got this response) and no further sleep — and
the error message carries the job id and the reported status. -/
theorem poll_failed_raises_immediately :
    ∀ (resp : Nat → PollResp) (jobId tmsg : String) (p attempt r : Nat)
      (s : String) (u : Option String),
      resp attempt = PollResp.ok s u → s = "failed" ∨ s = "error" →
      pollLoop resp jobId tmsg p attempt (r + 1)
          = (PollOutcome.jobFailed (jobFailedMessage jobId s), [PollEv.request]) ∧
      jobFailedMessage jobId s
          = "Export job " ++ jobId ++ " failed with status \x27" ++ s ++ "\x27" := by
  intro resp jobId tmsg p attempt r s u h hs
  have hc : s ≠ "complete" := by rcases hs with h2 | h2 <;> (subst h2; decide)
  refine ⟨?_, rfl⟩
  simp only [pollLoop, h]
  rw [if_neg hc, if_pos hs]

/-- Witness for C5: a first response of `"failed"` stops the loop after one
request, with the job id and status in the message. -/
theorem poll_failed_raises_immediately_witness :
    pollLoop (fun _ => PollResp.ok "failed" Option.none) "job-9" "tm" 10 0 59
      = (PollOutcome.jobFailed (jobFailedMessage "job-9" "failed"), [PollEv.request]) :=
  (poll_failed_raises_immediately (fun _ => PollResp.ok "failed" Option.none) "job-9" "tm"
    10 0 58 "failed" Option.none rfl (Or.inl rfl)).1

/-- C8: row decoding maps each field whose value is the empty string to
`None` and passes every other field value through unchanged; the payload
consisting of header `a,b` and data line `1,` decodes to exactly one row
with `a` mapped to `"1"` and `b` mapped to null. -/
theorem decode_normalizes_empty_fields :
    (∀ v : Option String, v ≠ some "" → cleanField v = v) ∧
    cleanField (some "") = Option.none ∧
    decodeRows "a,b\n1,\n" = [[("a", some "1"), ("b", Option.none)]] :=
  ⟨fun _ h => if_neg h, by decide, by decide⟩

/-- Witness for C8: a non-empty field value passes through unchanged. -/
theorem decode_normalizes_empty_fields_witness :
    cleanField (some "1") = some "1" :=
  decode_normalizes_empty_fields.1 (some "1") (by decide)

/-- C2: a checkpoint operation is emitted if and only if every row decoded
from the downloaded payload has first been emitted as an upsert without
error.  Spelled out: (i) if a checkpoint is in the emitted operations then
the invocation finished without error, the checkpoint carries the window
end, and the operations are exactly the upserts of all decoded rows
followed by that checkpoint; (ii) if the invocation aborted with any error
(submission, polling, download, or row emission) then no checkpoint was
emitted; (iii) conversely, when the window is non-empty and every stage
succeeds — enqueue returns a job id, polling completes with a download URL,
the download yields the payload, and the sink accepts every decoded row —
the operations are all the upserts followed by the checkpoint carrying the
window end, and no error is raised.  So no partial-window checkpoint is
ever produced. -/
theorem update_checkpoint_iff :
    ∀ (conf : Config) (st : Option Int) (env : Env) (t : Int),
      (Op.checkpoint t ∈ (update conf st env).ops →
        (update conf st env).err = Option.none ∧ t = computeEnd conf st env.now ∧
        ∃ url text, env.download url = Except.ok text ∧
          (update conf st env).ops
            = (decodeRows text).map (Op.upsert conf.dataset_id)
                ++ [Op.checkpoint (computeEnd conf st env.now)]) ∧
      ((update conf st env).err ≠ Option.none → Op.checkpoint t ∉ (update conf st env).ops) ∧
      (∀ (jobId url text : String),
        computeStart conf st env.now < computeEnd conf st env.now →
        env.enqueueResult = Except.ok jobId →
        (_poll_job env.pollResp jobId 10 60).1 = PollOutcome.complete (some url) →
        env.download url = Except.ok text →
        (∀ j, j < (decodeRows text).length → env.sinkOk j = true) →
        (update conf st env).ops
          = (decodeRows text).map (Op.upsert conf.dataset_id)
              ++ [Op.checkpoint (computeEnd conf st env.now)] ∧
        (update conf st env).err = Option.none) := by
  intro conf st env t
  by_cases hw : computeStart conf st env.now ≥ computeEnd conf st env.now
  · unfold update
    rw [if_pos hw]
    refine ⟨fun h => absurd h (List.not_mem_nil _), fun herr => absurd rfl herr, ?_⟩
    intro jobId url text hlt _ _ _ _
    exact absurd hlt (not_lt.mpr hw)
  · unfold update
    rw [if_neg hw]
    refine ⟨?_, ?_, ?_⟩
    · intro h
      obtain ⟨herr, ht, url, text, hdl, hops⟩ :=
        runPipeline_checkpoint_mem conf (computeStart conf st env.now)
          (computeEnd conf st env.now) env t h
      exact ⟨herr, ht, url, text, hdl, hops⟩
    · intro herr h
      exact herr (runPipeline_checkpoint_mem conf (computeStart conf st env.now)
        (computeEnd conf st env.now) env t h).1
    · intro jobId url text _ henq hout hdl hsink
      exact runPipeline_success conf (computeStart conf st env.now)
        (computeEnd conf st env.now) env jobId url text henq hout hdl hsink

/-- Witness for C2: the fully successful run at window (1001, 4601) emits
its upserts followed by the checkpoint, and the run with a failing download
emits no checkpoint. -/
theorem update_checkpoint_iff_witness :
    (update confC1 (some 1000) envC1).ops
        = (decodeRows "a,b\n1,2\n").map (Op.upsert "conversation") ++ [Op.checkpoint 4601] ∧
    Op.checkpoint 4601 ∉ (update confC1 (some 1000) envDlFail).ops := by
  constructor
  · exact ((update_checkpoint_iff confC1 (some 1000) envC1 4601).2.2 "job-1" "https://dl"
      "a,b\n1,2\n" (by decide) rfl (by decide) rfl (fun j _ => rfl)).1
  · exact (update_checkpoint_iff confC1 (some 1000) envDlFail 4601).2.1 (by decide)
